import Mathlib

/-!
Verification of the trading-behavior analytics core of the
national-bank-hackathon repository.

The repository ships the React frontend (components and the TypeScript
interface file frontend/src/types/index.ts) together with documentation of the
FastAPI backend.  The backend analytics services themselves
(features.py, bias_detector.py, temporal.py, counterfactual.py) are not part
of the shipped sources, so the definitions below that embed them are modelled
from the specification (each such definition carries a doc comment starting
with "Modelled from the spec:").  Frontend code (types/index.ts,
Counterfactual.tsx, BiasRadar.tsx, Dashboard.tsx, EquityCurve.tsx) is embedded
directly from the shipped TypeScript.

Conventions: timestamps are integers (seconds), money and percentages are
rationals; the real-valued scoring layer (sigmoid composites, Sharpe proxy,
volatility) lives in ℝ.
-/

namespace BiasDetector

/-! ## Data model: trade records and enriched trades -/

/-- Modelled from the spec: the input TradeRecord owned by the ingestion
collaborator (timestamp, asset, side, quantity, entry/exit price, realized
profit/loss, account balance after the trade). -/
structure TradeRecord where
  ts : Int
  asset : String
  sideBuy : Bool
  quantity : Rat
  entry_price : Rat
  exit_price : Rat
  pnl : Rat
  balance : Rat
deriving DecidableEq, Repr

/-- Modelled from the spec: the EnrichedTrade produced by the FeatureBuilder,
one-to-one with the TradeRecord it derives from. -/
structure EnrichedTrade where
  ts : Int
  asset : String
  quantity : Rat
  entry_price : Rat
  exit_price : Rat
  pnl : Rat
  balance : Rat
  is_win : Bool
  pnl_percent : Rat
  notional : Rat
  position_size_pct : Rat
  time_since_last : Int
  holding_duration : Int
  peak_balance : Rat
  drawdown_pct : Rat
  streak_index : Int
  trades_in_1h : Nat
  trades_in_4h : Nat
  after_loss : Bool
  after_win : Bool
deriving DecidableEq, Repr

/-! ## FeatureBuilder

Modelled from the spec: backend/app/services/features.py is absent from the
shipped sources; the per-trade derived signals below follow the formulas of
the specification (and of the repository README, which documents the same
formulas).  Each field of trade `i` is a pure function of the prefix of the
record list up to and including `i`. -/

/-- Balance of the record at index `i` (0 when out of range). -/
def balAt (rs : List TradeRecord) (i : Nat) : Rat :=
  ((rs.get? i).map (·.balance)).getD 0

/-- Timestamp of the record at index `i` (0 when out of range). -/
def tsAt (rs : List TradeRecord) (i : Nat) : Int :=
  ((rs.get? i).map (·.ts)).getD 0

/-- Profit/loss of the record at index `i` (0 when out of range). -/
def pnlAt (rs : List TradeRecord) (i : Nat) : Rat :=
  ((rs.get? i).map (·.pnl)).getD 0

/-- Modelled from the spec: win flag, `pnl > 0`. -/
def isWinAt (rs : List TradeRecord) (i : Nat) : Bool :=
  decide (0 < pnlAt rs i)

/-- Modelled from the spec: pnl percent divides by the previous balance,
falling back to the trade's own balance for the first trade. -/
def pnlPctAt (rs : List TradeRecord) (i : Nat) : Rat :=
  let prevB := if i = 0 then balAt rs 0 else balAt rs (i - 1)
  pnlAt rs i / prevB * 100

/-- Modelled from the spec: `time_since_last` is 0 for the first trade and the
timestamp delta to the previous trade otherwise. -/
def timeSinceLastAt (rs : List TradeRecord) (i : Nat) : Int :=
  if i = 0 then 0 else tsAt rs i - tsAt rs (i - 1)

/-- Modelled from the spec: running peak balance over the prefix ending at
`i`. -/
def peakAt (rs : List TradeRecord) (i : Nat) : Rat :=
  ((rs.take (i + 1)).map (·.balance)).foldr max (balAt rs i)

/-- Modelled from the spec: drawdown percentage `(balance - peak)/peak * 100`. -/
def drawdownAt (rs : List TradeRecord) (i : Nat) : Rat :=
  (balAt rs i - peakAt rs i) / peakAt rs i * 100

/-- Modelled from the spec: signed run-length streak index, `+k` for the k-th
consecutive win, `-k` for the k-th consecutive loss. -/
def streakAt (rs : List TradeRecord) : Nat → Int
  | 0 => if isWinAt rs 0 then 1 else -1
  | i + 1 =>
    if isWinAt rs (i + 1) then
      if isWinAt rs i then streakAt rs i + 1 else 1
    else
      if isWinAt rs i then -1 else streakAt rs i - 1

/-- Modelled from the spec: count of trades in the trailing window of width
`w` seconds ending at trade `i`, inclusive of trade `i`. -/
def tradesInWindowAt (rs : List TradeRecord) (w : Int) (i : Nat) : Nat :=
  (rs.take (i + 1)).countP
    (fun r => decide (tsAt rs i - w ≤ r.ts ∧ r.ts ≤ tsAt rs i))

/-- Modelled from the spec: `after_loss` references the previous trade; false
for the first trade. -/
def afterLossAt (rs : List TradeRecord) (i : Nat) : Bool :=
  if i = 0 then false else !isWinAt rs (i - 1)

/-- Modelled from the spec: `after_win` references the previous trade; false
for the first trade. -/
def afterWinAt (rs : List TradeRecord) (i : Nat) : Bool :=
  if i = 0 then false else isWinAt rs (i - 1)

/-- Modelled from the spec: the EnrichedTrade derived for index `i`. -/
def enrichAt (rs : List TradeRecord) (i : Nat) : EnrichedTrade :=
  let r := (rs.get? i).getD
    { ts := 0, asset := "", sideBuy := true, quantity := 0, entry_price := 0,
      exit_price := 0, pnl := 0, balance := 0 }
  { ts := r.ts
    asset := r.asset
    quantity := r.quantity
    entry_price := r.entry_price
    exit_price := r.exit_price
    pnl := r.pnl
    balance := r.balance
    is_win := isWinAt rs i
    pnl_percent := pnlPctAt rs i
    notional := r.quantity * r.entry_price
    position_size_pct := r.quantity * r.entry_price / |r.balance| * 100
    time_since_last := timeSinceLastAt rs i
    holding_duration := timeSinceLastAt rs i
    peak_balance := peakAt rs i
    drawdown_pct := drawdownAt rs i
    streak_index := streakAt rs i
    trades_in_1h := tradesInWindowAt rs 3600 i
    trades_in_4h := tradesInWindowAt rs 14400 i
    after_loss := afterLossAt rs i
    after_win := afterWinAt rs i }

/-- Modelled from the spec: the error surfaced by the FeatureBuilder on empty
input. -/
inductive FeatureError where
  | insufficientData
deriving DecidableEq, Repr

/-- Modelled from the spec: the FeatureBuilder, failing with
InsufficientDataError on an empty sequence and otherwise producing the
enriched sequence of the same length and order. -/
def featureBuild (rs : List TradeRecord) :
    Except FeatureError (List EnrichedTrade) :=
  if rs.isEmpty then .error .insufficientData
  else .ok ((List.range rs.length).map (enrichAt rs))

end BiasDetector

namespace BiasDetector

/-! ## Shared scoring idiom

Modelled from the spec: backend/app/services/bias_detector.py is absent from
the shipped sources.  All five detectors share one idiom: real-valued
sub-signals mapped through a logistic sigmoid onto (0,100), combined by a
fixed convex weight vector (an undefined sub-signal is dropped and the
remaining weights renormalized), and the composite clamped to [0,100]. -/

/-- Mean of a list of reals (0 for the empty list, by division by zero). -/
noncomputable def rmean (l : List ℝ) : ℝ := l.sum / l.length

/-- Population variance of a list of reals. -/
noncomputable def rvar (l : List ℝ) : ℝ :=
  rmean (l.map fun x => (x - rmean l) ^ 2)

/-- Standard deviation of a list of reals. -/
noncomputable def rstd (l : List ℝ) : ℝ := Real.sqrt (rvar l)

/-- Median of a list of reals (0 for the empty list). -/
noncomputable def rmedian (l : List ℝ) : ℝ :=
  let s := List.insertionSort (· ≤ ·) l
  if l.length % 2 = 1 then s.getD (l.length / 2) 0
  else (s.getD (l.length / 2 - 1) 0 + s.getD (l.length / 2) 0) / 2

/-- Pearson correlation of two equally long lists (0 on degenerate input). -/
noncomputable def pearson (xs ys : List ℝ) : ℝ :=
  let cov := rmean (List.zipWith (fun a b => (a - rmean xs) * (b - rmean ys)) xs ys)
  let d := rstd xs * rstd ys
  if d = 0 then 0 else cov / d

/-- Modelled from the spec: the logistic mapping
`sigmoid(x; midpoint, steepness) = 100 / (1 + exp(-steepness (x - midpoint)))`. -/
noncomputable def sigmoid (x midpoint steepness : ℝ) : ℝ :=
  100 / (1 + Real.exp (-(steepness * (x - midpoint))))

/-- Modelled from the spec: the final clamp of a composite score to [0,100],
the safety net against floating-point drift. -/
noncomputable def clampScore (x : ℝ) : ℝ := max 0 (min 100 x)

/-- Modelled from the spec: combine weighted optional sub-scores; an absent
(`none`) sub-signal is excluded and the remaining weights are renormalized to
sum to 1 (a zero total weight yields 0). -/
noncomputable def weightedComposite (subs : List (ℝ × Option ℝ)) : ℝ :=
  let act := subs.filterMap (fun p => (p.2).map (fun s => (p.1, s)))
  let tw := (act.map (fun q => q.1)).sum
  if tw = 0 then 0 else (act.map (fun q => q.1 * q.2)).sum / tw

/-- Band of a bias score (the documented thresholds of the data model). -/
inductive Band where
  | disciplined
  | elevated
  | high_risk
deriving DecidableEq, Repr

/-- Modelled from the spec: band assignment, disciplined below 30, elevated
below 60, high risk at 60 and above. -/
noncomputable def bandOf (s : ℝ) : Band :=
  if s < 30 then .disciplined else if s < 60 then .elevated else .high_risk

/-- Modelled from the spec: a BiasScore, carrying the composite score and its
band. -/
structure BiasScoreR where
  score : ℝ
  band : Band

/-- Modelled from the spec: a bias detector is a pure map from the enriched
sequence to its weighted optional sub-scores. -/
structure Detector where
  subSignals : List EnrichedTrade → List (ℝ × Option ℝ)

/-- Modelled from the spec: run one detector — weighted renormalized
composite, clamped to [0,100], band from the thresholds. -/
noncomputable def runDetector (d : Detector) (l : List EnrichedTrade) :
    BiasScoreR :=
  let s := clampScore (weightedComposite (d.subSignals l))
  { score := s, band := bandOf s }

/-! ## The five detectors

Modelled from the spec: sub-signal shapes and the convex weight vectors are
the spec's; sigmoid midpoint/steepness constants are the ones documented in
the repository README where given, and representative named constants where
the spec leaves them open (no claim depends on those constants). -/

/-- Wins of an enriched sequence. -/
def winsOf (l : List EnrichedTrade) : List EnrichedTrade :=
  l.filter (·.is_win)

/-- Losses of an enriched sequence. -/
def lossesOf (l : List EnrichedTrade) : List EnrichedTrade :=
  l.filter (fun e => !e.is_win)

/-- Trades taken right after a loss. -/
def afterLossOf (l : List EnrichedTrade) : List EnrichedTrade :=
  l.filter (·.after_loss)

/-- Trades taken right after a win. -/
def afterWinOf (l : List EnrichedTrade) : List EnrichedTrade :=
  l.filter (·.after_win)

/-- Realized profit/loss values of a sequence, as reals. -/
noncomputable def pnlsR (l : List EnrichedTrade) : List ℝ :=
  l.map (fun e => (e.pnl : ℝ))

/-- Session duration of an enriched sequence, in hours. -/
noncomputable def durationHoursE (l : List EnrichedTrade) : ℝ :=
  ((((l.getLast?.map (·.ts)).getD 0 - (l.head?.map (·.ts)).getD 0 : Int)) : ℝ) / 3600

/-- Modelled from the spec: a ratio whose denominator of 0 is treated as 1. -/
noncomputable def guardedRatio (a b : ℝ) : ℝ := a / (if b = 0 then 1 else b)

/-- Modelled from the spec: minimum sample size for the significance-gated
correlation sub-signal; the exact cutoff is not fixed by the spec. -/
def minCorrSample : Nat := 10

/-- Representative sigmoid midpoint for the loss-streak correlation signal
(not fixed by the spec). -/
noncomputable def corrMid : ℝ := 0.3

/-- Representative sigmoid steepness for the loss-streak correlation signal
(not fixed by the spec). -/
noncomputable def corrSteep : ℝ := 5

/-- Modelled from the spec: Overtrading sub-signals — trades per hour,
post-loss acceleration (inverted inter-trade-time ratio), clustering density
(mean trailing 1h count), and the significance-gated Pearson correlation of
loss-streak length against trailing 1h count; weights 0.40/0.25/0.20/0.15. -/
noncomputable def overtradingSubs (l : List EnrichedTrade) :
    List (ℝ × Option ℝ) :=
  let n : ℝ := l.length
  let freq := sigmoid (n / durationHoursE l) 120 0.02
  let aLoss := afterLossOf l
  let aOther := l.filter (fun e => !e.after_loss)
  let accel : Option ℝ :=
    if aLoss = [] ∨ aOther = [] then none
    else some (sigmoid
      (1 - guardedRatio (rmean (aLoss.map fun e => (e.time_since_last : ℝ)))
        (rmean (aOther.map fun e => (e.time_since_last : ℝ)))) 0.05 30)
  let cluster := sigmoid (rmean (l.map fun e => (e.trades_in_1h : ℝ))) 60 0.03
  let losses := lossesOf l
  let corr : Option ℝ :=
    if losses.length < minCorrSample then none
    else some (sigmoid
      (pearson (losses.map fun e => ((e.streak_index.natAbs : Nat) : ℝ))
        (losses.map fun e => (e.trades_in_1h : ℝ))) corrMid corrSteep)
  [(0.40, some freq), (0.25, accel), (0.20, some cluster), (0.15, corr)]

/-- Modelled from the spec: Loss Aversion sub-signals — magnitude asymmetry
(sigmoid over `log(1 + excess)`), holding-time asymmetry, loss skew against
the median loss, and the win-rate paradox term active only under a high win
rate with an unfavorable magnitude ratio; weights 0.45/0.20/0.15/0.20. -/
noncomputable def lossAversionSubs (l : List EnrichedTrade) :
    List (ℝ × Option ℝ) :=
  let absLosses := (lossesOf l).map fun e => |(e.pnl : ℝ)|
  let absWins := (winsOf l).map fun e => |(e.pnl : ℝ)|
  let magRatio := guardedRatio (rmean absLosses) (rmean absWins)
  let mag := sigmoid (Real.log (1 + max (magRatio - 1) 0)) 0.7 4
  let holdRatio := guardedRatio
    (rmean ((lossesOf l).map fun e => (e.holding_duration : ℝ)))
    (rmean ((winsOf l).map fun e => (e.holding_duration : ℝ)))
  let hold := sigmoid (holdRatio - 1) 0.5 4
  let skewRatio := guardedRatio (rmean absLosses) (rmedian absLosses)
  let skew := sigmoid (skewRatio - 1) 1.0 2.5
  let winRate := (winsOf l).length / (l.length : ℝ)
  let paradox : Option ℝ :=
    if 1 / 2 < winRate ∧ 1 < magRatio then
      some (sigmoid (winRate * magRatio) 1.5 2)
    else none
  [(0.45, some mag), (0.20, some hold), (0.15, some skew), (0.20, paradox)]

/-- Representative significance cutoff for the revenge difference-of-means
test (not fixed by the spec). -/
noncomputable def tTestCutoff : ℝ := 2

/-- Modelled from the spec: Revenge Trading sub-signals — standardized
post-loss performance deterioration with significance-dependent sigmoid
parameters, negative expectancy after losses, loss escalation within loss
streaks, post-loss volatility spike, and the aggression index with the ~1.2
strong-signal midpoint; weights 0.20/0.20/0.25/0.20/0.15. -/
noncomputable def revengeSubs (l : List EnrichedTrade) :
    List (ℝ × Option ℝ) :=
  let pW := pnlsR (afterWinOf l)
  let pL := pnlsR (afterLossOf l)
  let sAll := rstd (pnlsR l)
  let delta := guardedRatio (rmean pW - rmean pL) sAll
  let tStat := guardedRatio (rmean pW - rmean pL)
    (Real.sqrt (rvar pW / pW.length + rvar pL / pL.length))
  let deterioration :=
    if tTestCutoff < |tStat| then sigmoid delta 0.5 6 else sigmoid delta 1.0 3
  let expectancy :=
    sigmoid (if rmean pL < 0 then guardedRatio (-(rmean pL)) sAll else 0) 0.3 5
  let firstLosses := (l.filter (fun e => e.streak_index = -1)).map
    (fun e => |(e.pnl : ℝ)|)
  let secondLosses := (l.filter (fun e => e.streak_index = -2)).map
    (fun e => |(e.pnl : ℝ)|)
  let escalation : Option ℝ :=
    if firstLosses = [] ∨ secondLosses = [] then none
    else some (sigmoid
      (guardedRatio (rmean secondLosses) (rmean firstLosses) - 1) 0.3 4)
  let volSpike :=
    sigmoid (guardedRatio (rstd pL) (rstd pW) - 1) 0.3 4
  let aggression :=
    sigmoid (guardedRatio (rmean ((afterLossOf l).map fun e => |(e.notional : ℝ)|))
      (rmean ((afterWinOf l).map fun e => |(e.notional : ℝ)|))) 1.2 5
  [(0.20, some deterioration), (0.20, some expectancy), (0.25, escalation),
    (0.20, some volSpike), (0.15, some aggression)]

/-- Modelled from the spec: Anchoring sub-signals — fraction of exits within
0.2% of the entry price, fraction of trades with near-zero profit/loss
relative to the median magnitude, and fraction of exits close to a round
number; weights 0.40/0.35/0.25. -/
noncomputable def anchoringSubs (l : List EnrichedTrade) :
    List (ℝ × Option ℝ) :=
  let n : ℝ := l.length
  let anchoredFrac :=
    ((l.countP fun e => decide (|e.exit_price / e.entry_price - 1| < 2 / 1000)) : ℝ) / n
  let medAbs := rmedian (l.map fun e => |(e.pnl : ℝ)|)
  let zeroFrac :=
    ((l.countP fun e => decide (|(e.pnl : ℝ)| < medAbs / 10)) : ℝ) / n
  let roundFrac :=
    ((l.countP fun e => decide (|e.exit_price - ((round e.exit_price : ℤ) : ℚ)| < 1 / 100)) : ℝ) / n
  [(0.40, some (sigmoid anchoredFrac 0.2 10)),
    (0.35, some (sigmoid zeroFrac 0.2 10)),
    (0.25, some (sigmoid roundFrac 0.2 10))]

/-- Modelled from the spec: Overconfidence sub-signals — size escalation after
wins, cadence acceleration during win streaks, asset-concentration creep
during streaks, overextension (loss right after a win streak), and risk drift
(sizing near equity highs vs in drawdown); weights
0.25/0.25/0.15/0.20/0.15. -/
noncomputable def overconfidenceSubs (l : List EnrichedTrade) :
    List (ℝ × Option ℝ) :=
  let sizeEsc :=
    sigmoid (guardedRatio
      (rmean ((afterWinOf l).map fun e => |(e.notional : ℝ)|))
      (rmean ((l.filter (fun e => !e.after_win)).map fun e => |(e.notional : ℝ)|))) 1.2 5
  let streakTrades := l.filter (fun e => 2 ≤ e.streak_index)
  let cadence : Option ℝ :=
    if streakTrades = [] then none
    else some (sigmoid
      (1 - guardedRatio (rmean (streakTrades.map fun e => (e.time_since_last : ℝ)))
        (rmean (l.map fun e => (e.time_since_last : ℝ)))) 0.05 30)
  let concentration : Option ℝ :=
    if streakTrades = [] then none
    else some (sigmoid
      (1 - guardedRatio (((streakTrades.map (·.asset)).dedup.length : ℝ))
        (((l.map (·.asset)).dedup.length : ℝ))) 0.2 5)
  let lossAfterStreak := (l.filter (fun e => !e.is_win && e.after_win)).map
    (fun e => |(e.pnl : ℝ)|)
  let overext : Option ℝ :=
    if lossAfterStreak = [] then none
    else some (sigmoid
      (guardedRatio (rmean lossAfterStreak)
        (rmean ((lossesOf l).map fun e => |(e.pnl : ℝ)|)) - 1) 0.5 3)
  let nearHighs := l.filter (fun e => decide (-1 ≤ e.drawdown_pct))
  let inDrawdown := l.filter (fun e => decide (e.drawdown_pct ≤ -5))
  let riskDrift : Option ℝ :=
    if nearHighs = [] ∨ inDrawdown = [] then none
    else some (sigmoid
      (guardedRatio (rmean (nearHighs.map fun e => (e.position_size_pct : ℝ)))
        (rmean (inDrawdown.map fun e => (e.position_size_pct : ℝ))) - 1) 0.3 4)
  [(0.25, some sizeEsc), (0.25, cadence), (0.15, concentration),
    (0.20, overext), (0.15, riskDrift)]

/-- Modelled from the spec: the Overtrading detector. -/
noncomputable def overtradingDetector : Detector := ⟨overtradingSubs⟩

/-- Modelled from the spec: the Loss Aversion detector. -/
noncomputable def lossAversionDetector : Detector := ⟨lossAversionSubs⟩

/-- Modelled from the spec: the Revenge Trading detector. -/
noncomputable def revengeDetector : Detector := ⟨revengeSubs⟩

/-- Modelled from the spec: the Anchoring detector. -/
noncomputable def anchoringDetector : Detector := ⟨anchoringSubs⟩

/-- Modelled from the spec: the Overconfidence detector. -/
noncomputable def overconfidenceDetector : Detector := ⟨overconfidenceSubs⟩

/-- Color of a bias severity zone as drawn over the equity curve. -/
inductive ZoneColor where
  | green
  | amber
  | red
deriving DecidableEq, Repr

/-- Embedded from src/frontend/src/components/EquityCurve.tsx
(buildBiasZones): the zone color chosen from the window's maximum bias score —
red at 60 and above, amber at 30 and above, green otherwise. -/
noncomputable def zoneColor (maxScore : ℝ) : ZoneColor :=
  if maxScore ≥ 60 then .red else if maxScore ≥ 30 then .amber else .green

/-- The zone color that corresponds to each band of the data model. -/
def colorOfBand : Band → ZoneColor
  | .disciplined => .green
  | .elevated => .amber
  | .high_risk => .red

end BiasDetector

namespace BiasDetector

/-! ## CounterfactualSimulator

Modelled from the spec: backend/app/services/counterfactual.py is absent from
the shipped sources.  The simulator replays the enriched sequence under an
optional subset of discipline constraints in the fixed order: daily-limit and
cooldown exclusion filters first, then position-cap scaling, then stop-loss
truncation against the running simulated balance. -/

/-- Modelled from the spec: the backend constraint parameter set actually
consumed by the simulator (position-size cap %, stop-loss %, max trades per
day, cooldown minutes), each optional. -/
structure SimParams where
  max_position_pct : Option Rat
  stop_loss_pct : Option Rat
  max_daily_trades : Option Nat
  cooldown_minutes : Option Int
deriving DecidableEq, Repr

/-- Modelled from the spec: the calendar-day grouping key of a timestamp
(UTC day index of the epoch-second instant). -/
def dayOf (t : Int) : Int := t / 86400

/-- Bump the per-day counter at day `d`. -/
def updCount (counts : Int → Nat) (d : Int) : Int → Nat :=
  fun d2 => if d2 = d then counts d + 1 else counts d2

/-- Modelled from the spec: the exclusion test of the two filter constraints —
a trade is kept when its calendar day holds fewer than the daily limit of
already-kept trades and its timestamp is at least the cooldown (minutes
converted to seconds) after the last kept trade. -/
def keepOk (ps : SimParams) (counts : Int → Nat) (last : Option Int)
    (t : EnrichedTrade) : Bool :=
  (match ps.max_daily_trades with
    | none => true
    | some n => decide (counts (dayOf t.ts) < n)) &&
  (match ps.cooldown_minutes, last with
    | some m, some prev => decide (60 * m ≤ t.ts - prev)
    | _, _ => true)

/-- Modelled from the spec: the causal exclusion pass — daily-limit and
cooldown applied in session order, each kept trade updating the per-day
counter and the last-kept timestamp. -/
def filterGo (ps : SimParams) (counts : Int → Nat) (last : Option Int) :
    List EnrichedTrade → List EnrichedTrade
  | [] => []
  | t :: ts =>
    if keepOk ps counts last t then
      t :: filterGo ps (updCount counts (dayOf t.ts)) (some t.ts) ts
    else filterGo ps counts last ts

/-- Modelled from the spec: the exclusion pass started from empty state. -/
def filterStage (ps : SimParams) (ts : List EnrichedTrade) :
    List EnrichedTrade :=
  filterGo ps (fun _ => 0) none ts

/-- Modelled from the spec: position-cap scaling — a trade whose
position_size_pct exceeds the cap `p` has its profit/loss and quantity scaled
by `p / position_size_pct` and its position_size_pct clamped to `p`; this is a
scale-down, not an exclusion. -/
def scaleTrade (cap : Option Rat) (t : EnrichedTrade) : EnrichedTrade :=
  match cap with
  | none => t
  | some p =>
    if p < t.position_size_pct then
      let s := p / t.position_size_pct
      { t with pnl := s * t.pnl, quantity := s * t.quantity,
               position_size_pct := p }
    else t

/-- One simulated trade of the counterfactual replay: the (possibly scaled)
input profit/loss, the running simulated balance seen before the trade, and
the simulated profit/loss after stop-loss truncation. -/
structure SimTrade where
  ts : Int
  pnl_in : Rat
  position_size_pct : Rat
  quantity : Rat
  balance_before : Rat
  pnl : Rat
deriving DecidableEq, Repr

/-- Modelled from the spec: stop-loss truncation — with a stop-loss of `L`
percent and running simulated balance `B`, a trade whose loss magnitude would
exceed `L`% of `B` has its simulated profit/loss truncated to exactly
`-|B| * L / 100`. -/
def stopLossPnl (sl : Option Rat) (B p : Rat) : Rat :=
  match sl with
  | none => p
  | some L => if p < -(|B| * L / 100) then -(|B| * L / 100) else p

/-- Modelled from the spec: the sequential stop-loss pass over the filtered
and scaled trades, threading the running simulated balance. -/
def stopLossGo (sl : Option Rat) (B : Rat) :
    List EnrichedTrade → List SimTrade
  | [] => []
  | t :: ts =>
    let p := stopLossPnl sl B t.pnl
    { ts := t.ts, pnl_in := t.pnl, position_size_pct := t.position_size_pct,
      quantity := t.quantity, balance_before := B, pnl := p }
      :: stopLossGo sl (B + p) ts

/-- Win rate of a profit/loss sequence, in percent (0 on empty input). -/
def winRateOf (pnls : List Rat) : Rat :=
  ((pnls.countP fun p => decide (0 < p)) : Rat) / (pnls.length : Rat) * 100

/-- Running drawdown percentages of an equity curve against its running
peak. -/
def ddGo (peak : Rat) : List Rat → List Rat
  | [] => []
  | b :: bs => (b - max peak b) / max peak b * 100 :: ddGo (max peak b) bs

/-- Modelled from the spec: max drawdown percent of an equity curve — the
minimum (most negative) running drawdown, 0 for a flat or empty curve. -/
def maxDrawdownOf (curve : List Rat) : Rat :=
  match curve with
  | [] => 0
  | b :: bs => (ddGo b (b :: bs)).foldr min 0

/-- Modelled from the spec: the metric set computed identically for the
original and the simulated sequence — trade count, total profit/loss, final
balance, max drawdown %, Sharpe proxy `mean/std * sqrt 252`, volatility
(std of profit/loss), win rate. -/
structure Metrics where
  total_trades : Nat
  total_pnl : Rat
  final_balance : Rat
  max_drawdown_pct : Rat
  win_rate : Rat
  volatility : ℝ
  sharpe_ratio : ℝ

/-- Modelled from the spec: the equity curve as the cumulative sum of
profit/loss starting from the initial balance. -/
def equityOf (b0 : Rat) (pnls : List Rat) : List Rat :=
  List.scanl (· + ·) b0 pnls

/-- Modelled from the spec: compute the metric set of a profit/loss sequence
over initial balance `b0`. -/
noncomputable def computeMetrics (b0 : Rat) (pnls : List Rat) : Metrics :=
  { total_trades := pnls.length
    total_pnl := pnls.sum
    final_balance := b0 + pnls.sum
    max_drawdown_pct := maxDrawdownOf (equityOf b0 pnls)
    win_rate := winRateOf pnls
    volatility := rstd (pnls.map fun p => (p : ℝ))
    sharpe_ratio := rmean (pnls.map fun p => (p : ℝ))
      / rstd (pnls.map fun p => (p : ℝ)) * Real.sqrt 252 }

/-- Modelled from the spec: the CounterfactualResult — applied parameters,
original vs simulated metric sets, the two equity curves, and the simulated
trade path; the simulator always produces such a result, it raises no
error. -/
structure CfResult where
  params : SimParams
  trades_original : Nat
  trades_simulated : Nat
  original : Metrics
  simulated : Metrics
  equity_curve_original : List Rat
  equity_curve_simulated : List Rat
  sim_trades : List SimTrade

/-- Modelled from the spec: the full counterfactual replay — exclusion
filters, then position-cap scaling, then stop-loss truncation, then metrics
for both paths. -/
noncomputable def simulate (ps : SimParams) (b0 : Rat)
    (ts : List EnrichedTrade) : CfResult :=
  let kept := filterStage ps ts
  let scaled := kept.map (scaleTrade ps.max_position_pct)
  let sims := stopLossGo ps.stop_loss_pct b0 scaled
  let pnls := sims.map (·.pnl)
  { params := ps
    trades_original := ts.length
    trades_simulated := sims.length
    original := computeMetrics b0 (ts.map (·.pnl))
    simulated := computeMetrics b0 pnls
    equity_curve_original := equityOf b0 (ts.map (·.pnl))
    equity_curve_simulated := equityOf b0 pnls
    sim_trades := sims }

/-! ## Improvement percentages and the frontend sign convention -/

/-- The seven compared metrics, as keyed in the result maps. -/
inductive MetricKey where
  | total_trades
  | total_pnl
  | final_balance
  | max_drawdown_pct
  | sharpe_ratio
  | volatility
  | win_rate
deriving DecidableEq, Repr

/-- Value of one keyed metric, as a real. -/
noncomputable def metricVal (m : Metrics) : MetricKey → ℝ
  | .total_trades => m.total_trades
  | .total_pnl => (m.total_pnl : ℝ)
  | .final_balance => (m.final_balance : ℝ)
  | .max_drawdown_pct => (m.max_drawdown_pct : ℝ)
  | .sharpe_ratio => m.sharpe_ratio
  | .volatility => m.volatility
  | .win_rate => (m.win_rate : ℝ)

/-- Modelled from the spec: the per-metric improvement percentage
`(simulated - original) / |original| * 100`. -/
noncomputable def improvementPct (orig sim : ℝ) : ℝ :=
  (sim - orig) / |orig| * 100

/-- Improvement percentage of one keyed metric of a counterfactual result. -/
noncomputable def cfImprovement (r : CfResult) (k : MetricKey) : ℝ :=
  improvementPct (metricVal r.original k) (metricVal r.simulated k)

/-- Embedded from src/frontend/src/components/Counterfactual.tsx: the metric
keys for which a lower simulated value counts as better — exactly
max_drawdown_pct and volatility. -/
def lowerIsBetter (k : MetricKey) : Bool :=
  k = MetricKey.max_drawdown_pct || k = MetricKey.volatility

/-- Embedded from src/frontend/src/components/Counterfactual.tsx: the
improved flag of a metric tile — a negative improvement percentage for the
lower-is-better keys, a positive one for every other key. -/
def improvedProp (k : MetricKey) (imp : ℝ) : Prop :=
  if lowerIsBetter k then imp < 0 else 0 < imp

/-! ## TemporalTimelineBuilder

Modelled from the spec: backend/app/services/temporal.py is absent from the
shipped sources.  The builder derives an adaptive window size and step from
the total session duration and emits a point only for windows holding at
least 15 trades. -/

/-- Modelled from the spec: clamp a rational to a closed interval. -/
def qclamp (x lo hi : Rat) : Rat := max lo (min hi x)

/-- Total session duration in seconds (rational). -/
def sessionDuration (rs : List TradeRecord) : Rat :=
  ((tsAt rs (rs.length - 1) - tsAt rs 0 : Int) : Rat)

/-- Modelled from the spec: adaptive window size
`W = clamp(0.20 D, 3600, 28800)` seconds. -/
def windowW (D : Rat) : Rat := qclamp (0.20 * D) 3600 28800

/-- Modelled from the spec: adaptive step
`S = clamp(0.05 D, 900, 7200)` seconds. -/
def windowS (D : Rat) : Rat := qclamp (0.05 * D) 900 7200

/-- Number of window starts: one per step until the session end is passed. -/
def numWindows (rs : List TradeRecord) : Nat :=
  (sessionDuration rs / windowS (sessionDuration rs)).floor.toNat + 1

/-- Start of the `k`-th window. -/
def windowStart (rs : List TradeRecord) (k : Nat) : Rat :=
  ((tsAt rs 0 : Int) : Rat) + (k : Rat) * windowS (sessionDuration rs)

/-- Count of trades inside the window `[s, s + W)`. -/
def countWin (rs : List TradeRecord) (s : Rat) : Nat :=
  rs.countP (fun r => decide (s ≤ (r.ts : Rat) ∧ (r.ts : Rat) < s + windowW (sessionDuration rs)))

/-- One emitted timeline point: window bounds and its trade count (the five
window-restricted bias scores are recomputed by the detectors above). -/
structure TimelinePointW where
  window_start : Rat
  window_end : Rat
  trade_count : Nat
deriving DecidableEq, Repr

/-- Modelled from the spec: slide the window across the session in steps of
`S`; emit a point for a window exactly when it holds at least 15 trades;
windows below 15 trades are skipped silently. -/
def buildTimeline (rs : List TradeRecord) : List TimelinePointW :=
  if rs.isEmpty then []
  else (List.range (numWindows rs)).filterMap fun k =>
    if 15 ≤ countWin rs (windowStart rs k) then
      some { window_start := windowStart rs k,
             window_end := windowStart rs k + windowW (sessionDuration rs),
             trade_count := countWin rs (windowStart rs k) }
    else none

end BiasDetector

namespace BiasDetector

/-! ## Frontend interface embeddings

These lists transcribe, field by field, the shipped TypeScript sources. -/

/-- Embedded from src/frontend/src/types/index.ts (AnalysisResult, lines
75-90): the field names and types of the session-level result bundle exposed
to the presentation layer, in declaration order. -/
def analysisResultFields : List (String × String) :=
  [("session_id", "string"),
   ("trade_count", "number"),
   ("overtrading", "BiasScore"),
   ("loss_aversion", "BiasScore"),
   ("revenge_trading", "BiasScore"),
   ("anchoring", "BiasScore"),
   ("overconfidence", "BiasScore"),
   ("archetype", "Archetype"),
   ("feature_summary", "FeatureSummary"),
   ("bias_timeline", "BiasTimelinePoint[]"),
   ("equity_curve", "EquityCurvePoint[]"),
   ("trade_frequency", "TradeFrequency"),
   ("holding_time_comparison", "HoldingTimeComparison"),
   ("position_scatter", "PositionScatterPoint[]")]

/-- Embedded from src/frontend/src/types/index.ts (CounterfactualParams,
lines 92-99): the optional constraint fields declared by the counterfactual
parameter type, in declaration order. -/
def counterfactualParamsFields : List String :=
  ["max_position_pct", "stop_loss_pct", "max_daily_trades",
   "cooldown_minutes", "max_loss_streak", "max_drawdown_trigger_pct"]

/-- Embedded from src/frontend/src/components/Counterfactual.tsx (the
CONSTRAINTS array, lines 21-26): the keys of the four constraint controls the
What-If simulator UI exposes. -/
def constraintKeys : List String :=
  ["position", "stopLoss", "daily", "cooldown"]

/-- Embedded from src/frontend/src/components/Counterfactual.tsx (handleRun):
the parameter fields the UI actually sends to the counterfactual endpoint. -/
def counterfactualRequestFields : List String :=
  ["max_position_pct", "stop_loss_pct", "max_daily_trades",
   "cooldown_minutes"]

/-- Embedded from src/frontend/src/components/BiasRadar.tsx (Props, lines
4-9): the bias-score props the radar-and-score-bars view declares. -/
def biasRadarProps : List String :=
  ["overtrading", "lossAversion", "revengeTrading", "anchoring"]

/-- Embedded from src/frontend/src/components/Dashboard.tsx (lines 101-111):
the AnalysisResult fields the dashboard passes into the BiasRadar view. -/
def dashboardRadarArgs : List String :=
  ["overtrading", "loss_aversion", "revenge_trading", "anchoring"]

end BiasDetector

namespace BiasDetector

/-! ## Concrete sample inputs used by the witnesses -/

/-- A sample trade record: one losing trade. -/
def sampleRecord : TradeRecord :=
  { ts := 0, asset := "AAA", sideBuy := true, quantity := 1,
    entry_price := 100, exit_price := 95, pnl := -500, balance := 9500 }

/-- A sample enriched trade: a loss of 500 against a running balance of
10000, that is, a 5% loss. -/
def sampleEnriched : EnrichedTrade :=
  { ts := 0, asset := "AAA", quantity := 1, entry_price := 100,
    exit_price := 95, pnl := -500, balance := 9500, is_win := false,
    pnl_percent := -5, notional := 100, position_size_pct := 1,
    time_since_last := 0, holding_duration := 0, peak_balance := 10000,
    drawdown_pct := -5, streak_index := -1, trades_in_1h := 1,
    trades_in_4h := 1, after_loss := false, after_win := false }

/-- The simulated trade expected for `sampleEnriched` under a 2% stop-loss
against a running balance of 10000: the 5% loss is truncated to 200. -/
def sampleSim : SimTrade :=
  { ts := 0, pnl_in := -500, position_size_pct := 1, quantity := 1,
    balance_before := 10000, pnl := -200 }

/-- Parameter set enabling only a 2% stop-loss. -/
def slOnlyParams : SimParams :=
  { max_position_pct := none, stop_loss_pct := some 2,
    max_daily_trades := none, cooldown_minutes := none }

/-- Parameter set with a daily limit of 0, which excludes every trade. -/
def dailyZeroParams : SimParams :=
  { max_position_pct := none, stop_loss_pct := none,
    max_daily_trades := some 0, cooldown_minutes := none }

/-- Parameter set enabling all four constraints. -/
def allOnParams : SimParams :=
  { max_position_pct := some 5, stop_loss_pct := some 2,
    max_daily_trades := some 20, cooldown_minutes := some 5 }

/-- A sample original metric set (final balance 100). -/
noncomputable def sampleMetricsOrig : Metrics :=
  { total_trades := 1, total_pnl := -500, final_balance := 100,
    max_drawdown_pct := -5, win_rate := 0, volatility := 0,
    sharpe_ratio := 0 }

/-- A sample simulated metric set (final balance 150). -/
noncomputable def sampleMetricsSim : Metrics :=
  { total_trades := 1, total_pnl := -200, final_balance := 150,
    max_drawdown_pct := -2, win_rate := 0, volatility := 0,
    sharpe_ratio := 0 }

/-- A sample counterfactual result pairing the two metric sets. -/
noncomputable def sampleCf : CfResult :=
  { params := slOnlyParams, trades_original := 1, trades_simulated := 1,
    original := sampleMetricsOrig, simulated := sampleMetricsSim,
    equity_curve_original := [100], equity_curve_simulated := [100],
    sim_trades := [] }

/-! ## Score and band envelope (claims C1, C6) -/

/-- The documented envelope of a returned BiasScore: score within [0,100] and
band given exactly by the thresholds 30 and 60. -/
def scoreBandOk (b : BiasScoreR) : Prop :=
  0 ≤ b.score ∧ b.score ≤ 100 ∧
  (b.band = Band.disciplined ↔ b.score < 30) ∧
  (b.band = Band.elevated ↔ 30 ≤ b.score ∧ b.score < 60) ∧
  (b.band = Band.high_risk ↔ 60 ≤ b.score)

lemma clampScore_nonneg (x : ℝ) : 0 ≤ clampScore x := le_max_left 0 _

lemma clampScore_le_100 (x : ℝ) : clampScore x ≤ 100 :=
  max_le (by norm_num) (min_le_left _ _)

lemma bandOf_disciplined_iff (s : ℝ) : bandOf s = Band.disciplined ↔ s < 30 := by
  unfold bandOf
  split_ifs with h1 h2 <;> simp_all

lemma bandOf_elevated_iff (s : ℝ) : bandOf s = Band.elevated ↔ 30 ≤ s ∧ s < 60 := by
  unfold bandOf
  split_ifs with h1 h2 <;> simp_all

lemma bandOf_high_risk_iff (s : ℝ) : bandOf s = Band.high_risk ↔ 60 ≤ s := by
  unfold bandOf
  split_ifs with h1 h2 <;> simp_all
  linarith

lemma scoreBandOk_mk (x : ℝ) :
    scoreBandOk ⟨clampScore x, bandOf (clampScore x)⟩ :=
  ⟨clampScore_nonneg x, clampScore_le_100 x, bandOf_disciplined_iff _,
    bandOf_elevated_iff _, bandOf_high_risk_iff _⟩

lemma runDetector_scoreBandOk (d : Detector) (l : List EnrichedTrade) :
    scoreBandOk (runDetector d l) :=
  scoreBandOk_mk _

lemma zoneColor_band (s : ℝ) : zoneColor s = colorOfBand (bandOf s) := by
  unfold zoneColor bandOf
  split_ifs <;> first | rfl | (exfalso; linarith)

/-- C1: for every input trade sequence and every one of the five bias
detectors, the returned score lies in the closed interval [0,100] and the
band is assigned exactly by the thresholds — disciplined below 30, elevated
in [30,60), high risk at 60 and above; moreover the equity-curve bias-zone
coloring of the frontend uses exactly the same thresholds. -/
theorem claim_C1 (l : List EnrichedTrade) :
    scoreBandOk (runDetector overtradingDetector l) ∧
    scoreBandOk (runDetector lossAversionDetector l) ∧
    scoreBandOk (runDetector revengeDetector l) ∧
    scoreBandOk (runDetector anchoringDetector l) ∧
    scoreBandOk (runDetector overconfidenceDetector l) ∧
    ∀ s : ℝ, zoneColor s = colorOfBand (bandOf s) :=
  ⟨runDetector_scoreBandOk _ l, runDetector_scoreBandOk _ l,
    runDetector_scoreBandOk _ l, runDetector_scoreBandOk _ l,
    runDetector_scoreBandOk _ l, zoneColor_band⟩

/-- C6: the FeatureBuilder fails with InsufficientDataError exactly on the
empty sequence; on a single-trade session it succeeds, the enriched trade has
time_since_last = 0 and after_loss = after_win = false, and all five
detectors still return a well-defined banded score in [0,100]. -/
theorem claim_C6 :
    featureBuild [] = Except.error FeatureError.insufficientData ∧
    ∀ r : TradeRecord,
      featureBuild [r] = Except.ok [enrichAt [r] 0] ∧
      (enrichAt [r] 0).time_since_last = 0 ∧
      (enrichAt [r] 0).after_loss = false ∧
      (enrichAt [r] 0).after_win = false ∧
      scoreBandOk (runDetector overtradingDetector [enrichAt [r] 0]) ∧
      scoreBandOk (runDetector lossAversionDetector [enrichAt [r] 0]) ∧
      scoreBandOk (runDetector revengeDetector [enrichAt [r] 0]) ∧
      scoreBandOk (runDetector anchoringDetector [enrichAt [r] 0]) ∧
      scoreBandOk (runDetector overconfidenceDetector [enrichAt [r] 0]) := by
  refine ⟨rfl, fun r => ⟨rfl, rfl, rfl, rfl, ?_, ?_, ?_, ?_, ?_⟩⟩ <;>
    exact runDetector_scoreBandOk _ _

end BiasDetector

namespace BiasDetector

/-! ## Counterfactual simulator lemmas (claims C2, C3, C4) -/

lemma stopLossGo_length (sl : Option Rat) (B : Rat) (l : List EnrichedTrade) :
    (stopLossGo sl B l).length = l.length := by
  induction l generalizing B with
  | nil => rfl
  | cons t ts ih => simp [stopLossGo, ih]

lemma stopLossGo_map_ts (sl : Option Rat) (B : Rat) (l : List EnrichedTrade) :
    (stopLossGo sl B l).map (·.ts) = l.map (·.ts) := by
  induction l generalizing B with
  | nil => rfl
  | cons t ts ih => simp [stopLossGo, ih]

lemma stopLossGo_map_pos (sl : Option Rat) (B : Rat) (l : List EnrichedTrade) :
    (stopLossGo sl B l).map (·.position_size_pct) =
      l.map (·.position_size_pct) := by
  induction l generalizing B with
  | nil => rfl
  | cons t ts ih => simp [stopLossGo, ih]

lemma stopLossGo_mem_pnl (L : Rat) (B : Rat) (l : List EnrichedTrade) :
    ∀ st ∈ stopLossGo (some L) B l,
      st.pnl_in < -(|st.balance_before| * L / 100) →
      st.pnl = -(|st.balance_before| * L / 100) := by
  induction l generalizing B with
  | nil => intro st h; simp [stopLossGo] at h
  | cons t ts ih =>
    intro st hmem hcond
    rw [stopLossGo, List.mem_cons] at hmem
    rcases hmem with h | h
    · subst h
      simp only [stopLossPnl]
      rw [if_pos hcond]
    · exact ih (B + stopLossPnl (some L) B t.pnl) st h hcond

lemma scaleTrade_ts (c : Option Rat) (t : EnrichedTrade) :
    (scaleTrade c t).ts = t.ts := by
  cases c with
  | none => rfl
  | some p =>
    show (if p < t.position_size_pct then _ else t).ts = t.ts
    split <;> rfl

lemma scaleTrade_pos_le (p : Rat) (t : EnrichedTrade) :
    (scaleTrade (some p) t).position_size_pct ≤ p := by
  show (if p < t.position_size_pct then _ else t).position_size_pct ≤ p
  split_ifs with h
  · simp
  · exact le_of_not_lt h

lemma filterGo_length_le (ps : SimParams) (l : List EnrichedTrade) :
    ∀ (counts : Int → Nat) (last : Option Int),
      (filterGo ps counts last l).length ≤ l.length := by
  induction l with
  | nil => intro counts last; simp [filterGo]
  | cons t ts ih =>
    intro counts last
    simp only [filterGo]
    split_ifs with h
    · simpa using ih _ _
    · exact (ih _ _).trans (Nat.le_succ _)

lemma filterGo_cooldown (ps : SimParams) (m : Int)
    (hm : ps.cooldown_minutes = some m) (l : List EnrichedTrade) :
    ∀ (counts : Int → Nat) (last : Option Int),
      List.Chain' (fun a b : EnrichedTrade => 60 * m ≤ b.ts - a.ts)
        (filterGo ps counts last l) ∧
      ∀ t0 prev, (filterGo ps counts last l).head? = some t0 →
        last = some prev → 60 * m ≤ t0.ts - prev := by
  induction l with
  | nil =>
    intro counts last
    refine ⟨List.chain'_nil, ?_⟩
    intro t0 prev h
    simp [filterGo] at h
  | cons t ts ih =>
    intro counts last
    simp only [filterGo]
    split_ifs with hk
    · obtain ⟨ihc, ihh⟩ := ih (updCount counts (dayOf t.ts)) (some t.ts)
      constructor
      · rw [List.chain'_cons']
        exact ⟨fun y hy => ihh y t.ts hy rfl, ihc⟩
      · intro t0 prev h0 hprev
        rw [List.head?_cons, Option.some_inj] at h0
        subst h0
        subst hprev
        simp [keepOk, hm] at hk
        exact hk.2
    · exact ih counts last

lemma filterGo_daily (ps : SimParams) (n : Nat)
    (hn : ps.max_daily_trades = some n) (l : List EnrichedTrade) :
    ∀ (counts : Int → Nat) (last : Option Int) (d : Int),
      counts d ≤ n →
      (filterGo ps counts last l).countP (fun t => decide (dayOf t.ts = d))
        + counts d ≤ n := by
  induction l with
  | nil => intro counts last d hc; simpa [filterGo] using hc
  | cons t ts ih =>
    intro counts last d hc
    simp only [filterGo]
    split_ifs with hk
    · have hlt : counts (dayOf t.ts) < n := by
        simp [keepOk, hn] at hk
        exact hk.1
      by_cases hd : dayOf t.ts = d
      · rw [hd] at hlt
        rw [List.countP_cons_of_pos _ _ (by simp [hd])]
        have hupd : updCount counts (dayOf t.ts) d = counts d + 1 := by
          simp [updCount, hd]
        have h2 := ih (updCount counts (dayOf t.ts)) (some t.ts) d
          (by rw [hupd]; omega)
        rw [hupd] at h2
        omega
      · rw [List.countP_cons_of_neg _ _ (by simp [hd])]
        have hupd : updCount counts (dayOf t.ts) d = counts d := by
          unfold updCount
          rw [if_neg (fun h => hd h.symm)]
        have h2 := ih (updCount counts (dayOf t.ts)) (some t.ts) d
          (by rw [hupd]; exact hc)
        rw [hupd] at h2
        exact h2
    · exact ih counts last d hc

/-- C2: with a stop-loss constraint of `L` percent, every simulated trade
whose incoming loss magnitude exceeds `L`% of the running simulated balance
`B` at that point gets simulated profit/loss exactly `-|B| * L / 100`. -/
theorem claim_C2 (ps : SimParams) (b0 : Rat) (ts : List EnrichedTrade)
    (L : Rat) (hL : ps.stop_loss_pct = some L) :
    ∀ st ∈ (simulate ps b0 ts).sim_trades,
      st.pnl_in < -(|st.balance_before| * L / 100) →
      st.pnl = -(|st.balance_before| * L / 100) := by
  intro st hmem hcond
  have hrw : (simulate ps b0 ts).sim_trades =
      stopLossGo (some L) b0
        ((filterStage ps ts).map (scaleTrade ps.max_position_pct)) := by
    rw [← hL]; rfl
  rw [hrw] at hmem
  exact stopLossGo_mem_pnl L b0 _ st hmem hcond

/-- Witness for C2: the documented scenario — a stop-loss of 2% applied to a
trade losing 5% of the running balance 10000 yields simulated profit/loss
exactly `-|10000| * 2 / 100 = -200`. -/
theorem claim_C2_witness :
    slOnlyParams.stop_loss_pct = some 2 ∧
    sampleSim ∈ (simulate slOnlyParams 10000 [sampleEnriched]).sim_trades ∧
    sampleSim.pnl_in < -(|sampleSim.balance_before| * 2 / 100) ∧
    sampleSim.pnl = -(|sampleSim.balance_before| * 2 / 100) := by
  have habs : |(10000 : Rat)| = 10000 := abs_of_pos (by norm_num)
  have hcond : sampleSim.pnl_in < -(|sampleSim.balance_before| * 2 / 100) := by
    show (-500 : Rat) < -(|(10000 : Rat)| * 2 / 100)
    rw [habs]
    norm_num
  have h1 : filterStage slOnlyParams [sampleEnriched] = [sampleEnriched] := by
    simp [filterStage, filterGo, keepOk, slOnlyParams]
  have hcalc : (simulate slOnlyParams 10000 [sampleEnriched]).sim_trades
      = [sampleSim] := by
    show stopLossGo slOnlyParams.stop_loss_pct 10000
      ((filterStage slOnlyParams [sampleEnriched]).map
        (scaleTrade slOnlyParams.max_position_pct)) = [sampleSim]
    rw [h1]
    show stopLossGo (some 2) 10000 [sampleEnriched] = [sampleSim]
    have hpnl : stopLossPnl (some 2) 10000 (-500) = -200 := by
      show (if (-500 : Rat) < -(|(10000 : Rat)| * 2 / 100) then
        -(|(10000 : Rat)| * 2 / 100) else (-500 : Rat)) = -200
      rw [habs, if_pos (by norm_num)]
      norm_num
    simp [stopLossGo, hpnl, sampleSim, sampleEnriched]
  have hmem : sampleSim ∈ (simulate slOnlyParams 10000 [sampleEnriched]).sim_trades := by
    rw [hcalc]
    exact List.mem_singleton.mpr rfl
  exact ⟨rfl, hmem, hcond,
    claim_C2 slOnlyParams 10000 [sampleEnriched] 2 rfl sampleSim hmem hcond⟩

end BiasDetector

namespace BiasDetector

lemma simulate_sim_trades_eq (ps : SimParams) (b0 : Rat)
    (ts : List EnrichedTrade) :
    (simulate ps b0 ts).sim_trades =
      stopLossGo ps.stop_loss_pct b0
        ((filterStage ps ts).map (scaleTrade ps.max_position_pct)) := rfl

lemma scaled_map_ts (c : Option Rat) (l : List EnrichedTrade) :
    (l.map (scaleTrade c)).map (·.ts) = l.map (·.ts) := by
  rw [List.map_map]
  exact List.map_congr_left (fun t _ => scaleTrade_ts c t)

/-- C3: structural invariants of every simulation run — the simulated trade
count never exceeds the original count; under a cooldown of `m` minutes every
pair of consecutive kept trades is at least `60 m` seconds apart; under a
daily limit of `n` no calendar day holds more than `n` kept trades; under a
position cap `p` every kept or scaled trade has position_size_pct at most
`p`. -/
theorem claim_C3 (ps : SimParams) (b0 : Rat) (ts : List EnrichedTrade) :
    (simulate ps b0 ts).trades_simulated ≤
      (simulate ps b0 ts).trades_original ∧
    (∀ m, ps.cooldown_minutes = some m →
      List.Chain' (fun a b : SimTrade => 60 * m ≤ b.ts - a.ts)
        (simulate ps b0 ts).sim_trades) ∧
    (∀ n, ps.max_daily_trades = some n → ∀ d : Int,
      (simulate ps b0 ts).sim_trades.countP
        (fun st => decide (dayOf st.ts = d)) ≤ n) ∧
    (∀ p, ps.max_position_pct = some p →
      ∀ st ∈ (simulate ps b0 ts).sim_trades, st.position_size_pct ≤ p) := by
  refine ⟨?_, ?_, ?_, ?_⟩
  · show (stopLossGo ps.stop_loss_pct b0
      ((filterStage ps ts).map (scaleTrade ps.max_position_pct))).length ≤
        ts.length
    rw [stopLossGo_length, List.length_map]
    exact filterGo_length_le ps ts _ _
  · intro m hm
    have hchain := (filterGo_cooldown ps m hm ts (fun _ => 0) none).1
    have h1 : List.Chain' (fun x y : Int => 60 * m ≤ y - x)
        ((filterStage ps ts).map (·.ts)) := (List.chain'_map _).mpr hchain
    rw [← scaled_map_ts ps.max_position_pct,
      ← stopLossGo_map_ts ps.stop_loss_pct b0] at h1
    rw [simulate_sim_trades_eq]
    exact (List.chain'_map _).mp h1
  · intro n hn d
    rw [simulate_sim_trades_eq]
    have e1 : (stopLossGo ps.stop_loss_pct b0
        ((filterStage ps ts).map (scaleTrade ps.max_position_pct))).countP
          (fun st => decide (dayOf st.ts = d)) =
        (filterStage ps ts).countP (fun t => decide (dayOf t.ts = d)) := by
      have e2 := List.countP_map (fun x : Int => decide (dayOf x = d))
        (fun st : SimTrade => st.ts)
        (stopLossGo ps.stop_loss_pct b0
          ((filterStage ps ts).map (scaleTrade ps.max_position_pct)))
      have e3 := List.countP_map (fun x : Int => decide (dayOf x = d))
        (fun t : EnrichedTrade => t.ts) (filterStage ps ts)
      rw [stopLossGo_map_ts, scaled_map_ts] at e2
      rw [e3] at e2
      exact e2.symm
    rw [e1]
    have := filterGo_daily ps n hn ts (fun _ => 0) none d (Nat.zero_le n)
    simpa using this
  · intro p hp st hst
    rw [simulate_sim_trades_eq] at hst
    have h1 : st.position_size_pct ∈
        (stopLossGo ps.stop_loss_pct b0
          ((filterStage ps ts).map (scaleTrade ps.max_position_pct))).map
            (·.position_size_pct) := List.mem_map_of_mem _ hst
    rw [stopLossGo_map_pos, List.map_map] at h1
    obtain ⟨u, hu, heq⟩ := List.mem_map.mp h1
    rw [← heq]
    show (scaleTrade ps.max_position_pct u).position_size_pct ≤ p
    rw [hp]
    exact scaleTrade_pos_le p u

/-- Witness for C3: the invariants instantiated on a concrete run with all
four constraints enabled, the cap conjunct applied to the concrete simulated
trade. -/
theorem claim_C3_witness :
    (simulate allOnParams 10000 [sampleEnriched]).trades_simulated ≤
      (simulate allOnParams 10000 [sampleEnriched]).trades_original ∧
    List.Chain' (fun a b : SimTrade => 60 * 5 ≤ b.ts - a.ts)
      (simulate allOnParams 10000 [sampleEnriched]).sim_trades ∧
    (simulate allOnParams 10000 [sampleEnriched]).sim_trades.countP
      (fun st => decide (dayOf st.ts = 0)) ≤ 20 ∧
    sampleSim.position_size_pct ≤ 5 := by
  have hc := claim_C3 allOnParams 10000 [sampleEnriched]
  have hmem : sampleSim ∈ (simulate allOnParams 10000 [sampleEnriched]).sim_trades := by
    have h1 : filterStage allOnParams [sampleEnriched] = [sampleEnriched] := by
      simp [filterStage, filterGo, keepOk, allOnParams]
    have h2 : scaleTrade (some 5) sampleEnriched = sampleEnriched := by
      have h5 : ¬((5 : Rat) < sampleEnriched.position_size_pct) := by
        norm_num [sampleEnriched]
      simp [scaleTrade, h5]
    have habs : |(10000 : Rat)| = 10000 := abs_of_pos (by norm_num)
    have hpnl : stopLossPnl (some 2) 10000 (-500) = -200 := by
      show (if (-500 : Rat) < -(|(10000 : Rat)| * 2 / 100) then
        -(|(10000 : Rat)| * 2 / 100) else (-500 : Rat)) = -200
      rw [habs, if_pos (by norm_num)]
      norm_num
    have hcalc : (simulate allOnParams 10000 [sampleEnriched]).sim_trades
        = [sampleSim] := by
      rw [simulate_sim_trades_eq]
      show stopLossGo (some 2) 10000
        ((filterStage allOnParams [sampleEnriched]).map (scaleTrade (some 5)))
          = [sampleSim]
      rw [h1]
      show stopLossGo (some 2) 10000 [scaleTrade (some 5) sampleEnriched]
        = [sampleSim]
      rw [h2]
      simp [stopLossGo, hpnl, sampleSim, sampleEnriched]
    rw [hcalc]
    exact List.mem_singleton.mpr rfl
  exact ⟨hc.1, hc.2.1 5 rfl, hc.2.2.1 20 rfl 0, hc.2.2.2 5 rfl sampleSim hmem⟩

/-- C4: the simulator raises no error for any constraint parameter set — when
every trade is excluded by the enabled constraints it still returns a result
with zero simulated trades, zeroed metrics, and a flat equity curve equal to
the single starting balance. -/
theorem claim_C4 (ps : SimParams) (b0 : Rat) (ts : List EnrichedTrade)
    (h : filterStage ps ts = []) :
    (simulate ps b0 ts).trades_simulated = 0 ∧
    (simulate ps b0 ts).simulated.total_trades = 0 ∧
    (simulate ps b0 ts).simulated.total_pnl = 0 ∧
    (simulate ps b0 ts).simulated.win_rate = 0 ∧
    (simulate ps b0 ts).simulated.max_drawdown_pct = 0 ∧
    (simulate ps b0 ts).simulated.volatility = 0 ∧
    (simulate ps b0 ts).simulated.sharpe_ratio = 0 ∧
    (simulate ps b0 ts).simulated.final_balance = b0 ∧
    (simulate ps b0 ts).equity_curve_simulated = [b0] := by
  have hM : (simulate ps b0 ts).simulated = computeMetrics b0 [] := by
    show computeMetrics b0 ((stopLossGo ps.stop_loss_pct b0
      ((filterStage ps ts).map (scaleTrade ps.max_position_pct))).map (·.pnl))
      = computeMetrics b0 []
    rw [h]
    exact rfl
  have hE : (simulate ps b0 ts).equity_curve_simulated = [b0] := by
    show equityOf b0 ((stopLossGo ps.stop_loss_pct b0
      ((filterStage ps ts).map (scaleTrade ps.max_position_pct))).map (·.pnl))
      = [b0]
    rw [h]
    exact rfl
  have hT : (simulate ps b0 ts).trades_simulated = 0 := by
    show (stopLossGo ps.stop_loss_pct b0
      ((filterStage ps ts).map (scaleTrade ps.max_position_pct))).length = 0
    rw [h]
    exact rfl
  refine ⟨hT, ?_, ?_, ?_, ?_, ?_, ?_, ?_, hE⟩ <;> rw [hM]
  · rfl
  · rfl
  · simp [computeMetrics, winRateOf]
  · simp [computeMetrics, equityOf, maxDrawdownOf, ddGo]
  · simp [computeMetrics, rstd, rvar, rmean]
  · simp [computeMetrics, rstd, rvar, rmean]
  · simp [computeMetrics]

/-- Witness for C4: a daily limit of 0 excludes the only trade; the run still
returns zero simulated trades and the flat one-point equity curve. -/
theorem claim_C4_witness :
    filterStage dailyZeroParams [sampleEnriched] = [] ∧
    (simulate dailyZeroParams 10000 [sampleEnriched]).trades_simulated = 0 ∧
    (simulate dailyZeroParams 10000 [sampleEnriched]).equity_curve_simulated
      = [10000] := by
  have h : filterStage dailyZeroParams [sampleEnriched] = [] := by
    simp [filterStage, filterGo, keepOk, dailyZeroParams]
  exact ⟨h, (claim_C4 dailyZeroParams 10000 [sampleEnriched] h).1,
    (claim_C4 dailyZeroParams 10000 [sampleEnriched] h).2.2.2.2.2.2.2.2⟩

end BiasDetector

namespace BiasDetector

/-! ## Timeline builder (claim C5) -/

lemma qclamp_le_left (x lo hi : Rat) : lo ≤ qclamp x lo hi := le_max_left _ _

lemma qclamp_le_right (x lo hi : Rat) (h : lo ≤ hi) : qclamp x lo hi ≤ hi :=
  max_le h (min_le_left _ _)

lemma mem_buildTimeline (rs : List TradeRecord) (hne : rs ≠ [])
    (pt : TimelinePointW) :
    pt ∈ buildTimeline rs ↔
      ∃ k, k ∈ List.range (numWindows rs) ∧
        15 ≤ countWin rs (windowStart rs k) ∧
        pt = { window_start := windowStart rs k,
               window_end := windowStart rs k + windowW (sessionDuration rs),
               trade_count := countWin rs (windowStart rs k) } := by
  unfold buildTimeline
  rw [if_neg (by simpa [List.isEmpty_iff] using hne)]
  rw [List.mem_filterMap]
  constructor
  · rintro ⟨k, hk, h⟩
    by_cases hc : 15 ≤ countWin rs (windowStart rs k)
    · rw [if_pos hc] at h
      exact ⟨k, hk, hc, (Option.some_inj.mp h).symm⟩
    · rw [if_neg hc] at h
      exact absurd h (by simp)
  · rintro ⟨k, hk, hc, rfl⟩
    exact ⟨k, hk, by rw [if_pos hc]⟩

/-- C5: the timeline builder uses the adaptive window size
`W = clamp(0.20 D, 3600, 28800)` and step `S = clamp(0.05 D, 900, 7200)`
seconds, and emits a timeline point for a window exactly when the window
holds at least 15 trades; a window below 15 trades yields no point and no
error. -/
theorem claim_C5 (rs : List TradeRecord) (hne : rs ≠ []) :
    windowW (sessionDuration rs) =
      qclamp (0.20 * sessionDuration rs) 3600 28800 ∧
    windowS (sessionDuration rs) =
      qclamp (0.05 * sessionDuration rs) 900 7200 ∧
    3600 ≤ windowW (sessionDuration rs) ∧
    windowW (sessionDuration rs) ≤ 28800 ∧
    900 ≤ windowS (sessionDuration rs) ∧
    windowS (sessionDuration rs) ≤ 7200 ∧
    (∀ pt ∈ buildTimeline rs, 15 ≤ pt.trade_count) ∧
    ∀ k < numWindows rs,
      ((∃ pt ∈ buildTimeline rs, pt.window_start = windowStart rs k) ↔
        15 ≤ countWin rs (windowStart rs k)) := by
  refine ⟨rfl, rfl, qclamp_le_left _ _ _,
    qclamp_le_right _ _ _ (by norm_num), qclamp_le_left _ _ _,
    qclamp_le_right _ _ _ (by norm_num), ?_, ?_⟩
  · intro pt hpt
    obtain ⟨k, _, hc, rfl⟩ := (mem_buildTimeline rs hne pt).mp hpt
    exact hc
  · intro k hk
    constructor
    · rintro ⟨pt, hpt, hstart⟩
      obtain ⟨k2, hk2, hc2, rfl⟩ := (mem_buildTimeline rs hne pt).mp hpt
      have hS : (900 : Rat) ≤ windowS (sessionDuration rs) :=
        qclamp_le_left _ _ _
      have hSpos : (0 : Rat) < windowS (sessionDuration rs) :=
        lt_of_lt_of_le (by norm_num) hS
      have hmul : (k2 : Rat) * windowS (sessionDuration rs) =
          (k : Rat) * windowS (sessionDuration rs) := by
        have h0 : windowStart rs k2 = windowStart rs k := hstart
        unfold windowStart at h0
        exact add_left_cancel h0
      have hcast : (k2 : Rat) = (k : Rat) :=
        mul_right_cancel₀ (ne_of_gt hSpos) hmul
      have hkk : k2 = k := Nat.cast_injective hcast
      rw [← hkk]
      exact hc2
    · intro hc
      exact ⟨_, (mem_buildTimeline rs hne _).mpr
        ⟨k, List.mem_range.mpr hk, hc, rfl⟩, rfl⟩

/-- Witness for C5: the emission criterion applied to a concrete one-trade
session, whose only window holds fewer than 15 trades. -/
theorem claim_C5_witness :
    ([sampleRecord] : List TradeRecord) ≠ [] ∧
    0 < numWindows [sampleRecord] ∧
    ((∃ pt ∈ buildTimeline [sampleRecord],
        pt.window_start = windowStart [sampleRecord] 0) ↔
      15 ≤ countWin [sampleRecord] (windowStart [sampleRecord] 0)) := by
  have hne : ([sampleRecord] : List TradeRecord) ≠ [] := by simp
  have hk : 0 < numWindows [sampleRecord] := Nat.succ_pos _
  exact ⟨hne, hk, (claim_C5 [sampleRecord] hne).2.2.2.2.2.2.2 0 hk⟩

/-! ## Improvement percentages (claim C8) -/

lemma improvementPct_neg_iff (o s : ℝ) (h : o ≠ 0) :
    improvementPct o s < 0 ↔ s < o := by
  have hop : 0 < |o| := abs_pos.mpr h
  unfold improvementPct
  constructor
  · intro hlt
    by_contra hge
    push_neg at hge
    have h1 : 0 ≤ (s - o) / |o| * 100 :=
      mul_nonneg (div_nonneg (by linarith) (abs_nonneg o)) (by norm_num)
    linarith
  · intro hlt
    have h1 : s - o < 0 := by linarith
    have h2 : (s - o) / |o| < 0 := div_neg_of_neg_of_pos h1 hop
    have h3 := mul_lt_mul_of_pos_right h2 (by norm_num : (0 : ℝ) < 100)
    simpa using h3

lemma improvementPct_pos_iff (o s : ℝ) (h : o ≠ 0) :
    0 < improvementPct o s ↔ o < s := by
  have hop : 0 < |o| := abs_pos.mpr h
  unfold improvementPct
  constructor
  · intro hgt
    by_contra hge
    push_neg at hge
    have h1 : s - o ≤ 0 := by linarith
    have h2 : (s - o) / |o| ≤ 0 := div_nonpos_iff.mpr (Or.inr ⟨h1, abs_nonneg o⟩)
    have h3 := mul_le_mul_of_nonneg_right h2 (by norm_num : (0 : ℝ) ≤ 100)
    simp at h3
    linarith
  · intro hlt
    have h1 : 0 < s - o := by linarith
    have h2 : 0 < (s - o) / |o| := div_pos h1 hop
    have h3 := mul_pos h2 (by norm_num : (0 : ℝ) < 100)
    exact h3

/-- C8: for every metric of a counterfactual result, the improvement
percentage equals `(simulated - original) / |original| * 100`, and the
frontend improved flag holds exactly when the simulated value is lower than
the original for max drawdown and volatility, and higher than the original
for every other metric (when the original is nonzero). -/
theorem claim_C8 (r : CfResult) (k : MetricKey) :
    cfImprovement r k =
      (metricVal r.simulated k - metricVal r.original k) /
        |metricVal r.original k| * 100 ∧
    (metricVal r.original k ≠ 0 →
      (improvedProp k (cfImprovement r k) ↔
        if lowerIsBetter k then
          metricVal r.simulated k < metricVal r.original k
        else
          metricVal r.original k < metricVal r.simulated k)) := by
  refine ⟨rfl, fun h => ?_⟩
  unfold improvedProp
  cases hlb : lowerIsBetter k
  · simp only [hlb, Bool.false_eq_true, if_false]
    exact improvementPct_pos_iff _ _ h
  · simp only [hlb, if_true]
    exact improvementPct_neg_iff _ _ h

/-- Witness for C8: the sign convention evaluated on a concrete result whose
original final balance is 100 and simulated final balance is 150. -/
theorem claim_C8_witness :
    metricVal sampleCf.original MetricKey.final_balance ≠ 0 ∧
    (improvedProp MetricKey.final_balance
        (cfImprovement sampleCf MetricKey.final_balance) ↔
      if lowerIsBetter MetricKey.final_balance then
        metricVal sampleCf.simulated MetricKey.final_balance <
          metricVal sampleCf.original MetricKey.final_balance
      else
        metricVal sampleCf.original MetricKey.final_balance <
          metricVal sampleCf.simulated MetricKey.final_balance) := by
  have h : metricVal sampleCf.original MetricKey.final_balance ≠ 0 := by
    show ((100 : Rat) : ℝ) ≠ 0
    norm_num
  exact ⟨h, (claim_C8 sampleCf MetricKey.final_balance).2 h⟩

end BiasDetector

namespace BiasDetector

/-! ## Frontend interface claims (C7, C9, C10) -/

/-- Counterexample for C7 as stated: the declared counterfactual parameter
type does not accept exactly four constraint kinds — it declares six
optional constraint fields, including max_loss_streak and
max_drawdown_trigger_pct. -/
theorem claim_C7_counterexample :
    "max_loss_streak" ∈ counterfactualParamsFields ∧
    "max_drawdown_trigger_pct" ∈ counterfactualParamsFields ∧
    counterfactualParamsFields.length = 6 := by decide

/-- C7 (amended): the What-If simulator UI exposes exactly the four
constraint controls — position cap, stop-loss, daily limit, cooldown — and
sends exactly those four parameter fields; the declared CounterfactualParams
type carries those same four fields plus two further optional constraint
fields (max_loss_streak, max_drawdown_trigger_pct) that the UI never sends. -/
theorem claim_C7 :
    constraintKeys = ["position", "stopLoss", "daily", "cooldown"] ∧
    counterfactualRequestFields =
      ["max_position_pct", "stop_loss_pct", "max_daily_trades",
        "cooldown_minutes"] ∧
    counterfactualParamsFields =
      counterfactualRequestFields ++
        ["max_loss_streak", "max_drawdown_trigger_pct"] ∧
    "max_loss_streak" ∉ counterfactualRequestFields ∧
    "max_drawdown_trigger_pct" ∉ counterfactualRequestFields := by decide

/-- C9: the session-level result bundle exposed to the presentation layer
carries all the documented components — five BiasScore fields (one per bias
kind), the archetype, the summary statistics, the timeline point list, the
equity-curve points, the day-by-hour trade-frequency matrix, the win/loss
holding-time comparison, and the position-size-vs-outcome point list. -/
theorem claim_C9 :
    analysisResultFields.countP (fun f => decide (f.2 = "BiasScore")) = 5 ∧
    ("overtrading", "BiasScore") ∈ analysisResultFields ∧
    ("loss_aversion", "BiasScore") ∈ analysisResultFields ∧
    ("revenge_trading", "BiasScore") ∈ analysisResultFields ∧
    ("anchoring", "BiasScore") ∈ analysisResultFields ∧
    ("overconfidence", "BiasScore") ∈ analysisResultFields ∧
    ("archetype", "Archetype") ∈ analysisResultFields ∧
    ("feature_summary", "FeatureSummary") ∈ analysisResultFields ∧
    ("bias_timeline", "BiasTimelinePoint[]") ∈ analysisResultFields ∧
    ("equity_curve", "EquityCurvePoint[]") ∈ analysisResultFields ∧
    ("trade_frequency", "TradeFrequency") ∈ analysisResultFields ∧
    ("holding_time_comparison", "HoldingTimeComparison")
      ∈ analysisResultFields ∧
    ("position_scatter", "PositionScatterPoint[]") ∈ analysisResultFields := by
  decide

/-- C10: the session-level bias severity view is built from exactly four of
the five bias scores — the dashboard passes overtrading, loss_aversion,
revenge_trading, and anchoring into the radar-and-score-bars view, whose
props declare only those four slots, and overconfidence is never passed,
even though the result bundle carries all five scores. -/
theorem claim_C10 :
    dashboardRadarArgs =
      ["overtrading", "loss_aversion", "revenge_trading", "anchoring"] ∧
    biasRadarProps.length = 4 ∧
    dashboardRadarArgs.length = 4 ∧
    "overconfidence" ∉ dashboardRadarArgs ∧
    "overconfidence" ∉ biasRadarProps ∧
    ("overconfidence", "BiasScore") ∈ analysisResultFields := by decide

end BiasDetector
